import Mathlib

/-!
Verification of the JOSSA2025 seat-chance analysis engine.

This file is a shallow embedding of the core logic of the repository:

- `src/modules/multi_student_analyzer.py` (`display_multi_student_analyzer`):
  header normalization, the category/gender cutoff resolver, and the per-pair
  seat-chance evaluation loop, together with the session-state handling of its
  failure paths;
- `src/modules/verify_choice_filling.py` and
  `src/modules/verify_choice_filling_structured.py`: the alternative master
  header normalization and the validation checks of the dashboard.

Tabular cells loaded with `dtype=str` and then coerced with
`pd.to_numeric(..., errors="coerce")` are modelled as `Option Int`:
`none` stands for NaN (missing or unparseable), `some v` for a parsed number
(published cutoffs and ranks are integers).  Python's `list(set(...))`
de-duplication is modelled by `List.dedup`, a fixed de-duplication order,
matching the fixed per-process enumeration order of a CPython set.
-/

/-- Python `str.strip()`: drop whitespace from both ends, modelled on the
character list of the string. -/
def pyStrip (s : String) : String :=
  ⟨((s.data.dropWhile Char.isWhitespace).reverse.dropWhile Char.isWhitespace).reverse⟩

/-- Python `str.upper()` as used on ASCII column headers. -/
def pyUpper (s : String) : String := ⟨s.data.map Char.toUpper⟩

/-- Python `str.replace(' ', '_')`: the single-character replace is a
character-wise map. -/
def pyUnderscore (s : String) : String :=
  ⟨s.data.map (fun c => if c = ' ' then '_' else c)⟩

/-- Master header normalization used by `multi_student_analyzer.py` line 37,
`verify_choice_filling_structured.py` line 43 and `smart_insights.py` line 44:
`.str.strip().str.upper().str.replace(' ', '_')`. -/
def normalizeHeaderUnderscore (h : String) : String := pyUnderscore (pyUpper (pyStrip h))

/-- Master header normalization used by `verify_choice_filling.py` line 40:
`.str.strip().str.upper()` — no underscore substitution. -/
def normalizeHeaderPlain (h : String) : String := pyUpper (pyStrip h)

/-- One row of the student batch table after header normalization and numeric
coercion of the four rank columns (`multi_student_analyzer.py` lines 80-96).
Field names follow the normalized column names of the source, including its
misspellings. -/
structure StudentRow where
  NAME : String
  STUDENT_ID : String
  GENDER : String
  CATEGORY : String
  JEE_ADVACED_CRL_RANK : Option Int
  JEE_ADVNCED_CATEGORY_RANK : Option Int
  JEE_MAIN_CRL_RANK : Option Int
  JEE_MAIN_CATEGORY_RANK : Option Int
deriving DecidableEq, Repr

/-- One row of the master option table after header normalization and numeric
coercion of the cutoff columns (`multi_student_analyzer.py` lines 36-57).
`cutoffs` is the association of cutoff-column label to present numeric value;
a label absent from the list models a NaN cell. -/
structure MasterRow where
  COLLEGE_CODE : String
  COURSE_CODE : String
  TYPE : String
  PROGRAM : Option String
  cutoffs : List (String × Int)
deriving DecidableEq, Repr

/-- The loaded master table: its (normalized) column list and its rows.  The
column list is consulted by the resolver's `in processed_master_df.columns`
membership tests. -/
structure MasterTable where
  cols : List String
  rows : List MasterRow
deriving DecidableEq, Repr

/-- Cell access `college_option[col]` guarded by
`col in college_option and pd.notna(college_option[col])`
(`multi_student_analyzer.py` line 192): a value is present when the column
exists in the table schema and the cell is not NaN. -/
def getCutoff (cols : List String) (o : MasterRow) (c : String) : Option Int :=
  if c ∈ cols then o.cutoffs.lookup c else none

/-- The `category_to_cutoff_map` dictionary of `multi_student_analyzer.py`
lines 111-117, as category to (FEM column, GEN column). -/
def category_to_cutoff_map (cat : String) : Option (String × String) :=
  if cat = "OC" then some ("OC_FEM", "OC_GEN")
  else if cat = "EWS" then some ("EWS_FEM", "EWS_GEN")
  else if cat = "OBC" then some ("OBC_FEM", "OBC_GEN")
  else if cat = "SC" then some ("SC_FEM", "SC_GEN")
  else if cat = "ST" then some ("ST_FEM", "ST_GEN")
  else none

/-- The category/gender cutoff resolver of `multi_student_analyzer.py`
lines 141-165: collect the student's category columns (FEM and GEN for a
female student, GEN only otherwise), add the open-category fallback columns
for every non-OC category, drop columns missing from the master schema, and
de-duplicate (the source's `list(set(...))`). -/
def eligibleCutoffCols (masterCols : List String) (category gender : String) : List String :=
  let base : List String :=
    match category_to_cutoff_map category with
    | none => []
    | some (femCol, genCol) =>
      let catCols : List String :=
        if gender = "FEM" then
          (if femCol ∈ masterCols then [femCol] else []) ++
          (if genCol ∈ masterCols then [genCol] else [])
        else
          (if genCol ∈ masterCols then [genCol] else [])
      let ocFallback : List String :=
        if category ≠ "OC" then
          if gender = "FEM" then
            (if "OC_GEN" ∈ masterCols then ["OC_GEN"] else []) ++
            (if "OC_FEM" ∈ masterCols then ["OC_FEM"] else [])
          else
            (if "OC_GEN" ∈ masterCols then ["OC_GEN"] else [])
        else []
      catCols ++ ocFallback
  (base.filter (fun c => decide (c ∈ masterCols))).dedup

/-- Institute types that the evaluation loop does not skip
(`multi_student_analyzer.py` lines 176-183). -/
def eligibleInstituteTypes : List String := ["IIT", "NIT", "IIIT", "GFTI"]

/-- Rank-stage label per institute type (`multi_student_analyzer.py`
lines 176-183); `none` means the pair is skipped (`continue`). -/
def rankStageFor (t : String) : Option String :=
  if t = "IIT" then some ("JEE Advanced Rank")
  else if t = "NIT" ∨ t = "IIIT" ∨ t = "GFTI" then some ("JEE Mains Rank")
  else none

/-- Advanced-stage rank of a student (`multi_student_analyzer.py`
lines 131-134): the CRL rank for OC students, the category rank otherwise. -/
def advRankOf (s : StudentRow) : Option Int :=
  if s.CATEGORY = "OC" then s.JEE_ADVACED_CRL_RANK else s.JEE_ADVNCED_CATEGORY_RANK

/-- Mains-stage rank of a student (`multi_student_analyzer.py`
lines 136-139). -/
def mainsRankOf (s : StudentRow) : Option Int :=
  if s.CATEGORY = "OC" then s.JEE_MAIN_CRL_RANK else s.JEE_MAIN_CATEGORY_RANK

/-- The applicable rank for an institute type (`multi_student_analyzer.py`
lines 176-181); only consulted when `rankStageFor` is `some`. -/
def applicableRankOf (s : StudentRow) (t : String) : Option Int :=
  if t = "IIT" then advRankOf s else mainsRankOf s

/-- The cutoff values collected at an option over the student's eligible
columns (`multi_student_analyzer.py` lines 189-193). -/
def collectedCutoffs (cols elig : List String) (o : MasterRow) : List Int :=
  elig.filterMap (fun c => getCutoff cols o c)

/-- Rendering of an optional numeric cell in the result row: the source's
`f"{int(x)}" if pd.notna(x) else "N/A"`. -/
def optNumStr : Option Int → String
  | some v => toString v
  | none => "N/A"

/-- One emitted result row (`multi_student_analyzer.py` lines 210-224); every
field holds the rendered string content of the corresponding CSV cell. -/
structure EvalResult where
  Student_ID : String
  Student_Name : String
  Student_Category : String
  Student_Gender : String
  College_Type : String
  College_Code : String
  Program_Name : String
  Course_Code : String
  Student_Rank_Used : String
  Rank_Type : String
  Best_Eligible_Cutoff : String
  Considered_Cutoffs_for_Option : String
  Seat_Chance : String
deriving DecidableEq, Repr

/-- The best eligible cutoff of a pair (`multi_student_analyzer.py`
lines 185-199): computed only when the applicable rank is present, as the
minimum of the collected eligible cutoff values; `none` when no value was
collected. -/
def bestCutoffFor (cols elig : List String) (s : StudentRow) (o : MasterRow) : Option Int :=
  match applicableRankOf s o.TYPE with
  | none => none
  | some _ => (collectedCutoffs cols elig o).min?

/-- The audit list of considered cutoffs (`multi_student_analyzer.py`
line 197): built only when the rank is present and at least one eligible
cutoff value was collected; each entry tags the label with its value. -/
def consideredFor (cols elig : List String) (s : StudentRow) (o : MasterRow) : List String :=
  match applicableRankOf s o.TYPE, collectedCutoffs cols elig o with
  | some _, _ :: _ =>
    elig.filterMap (fun c => (getCutoff cols o c).map (fun v => c ++ (": ") ++ toString v))
  | _, _ => []

/-- The verdict of a pair (`multi_student_analyzer.py` lines 201-208):
default no-cutoff-data; compare rank against the best cutoff when it is
present; rank-missing when the rank itself is absent. -/
def seatChanceFor (cols elig : List String) (s : StudentRow) (o : MasterRow) : String :=
  match bestCutoffFor cols elig s o, applicableRankOf s o.TYPE with
  | some b, some r => if r ≤ b then "✅ LIKELY" else "❌ UNLIKELY"
  | none, none => "N/A - Student Rank Missing"
  | _, _ => "N/A - No Cutoff"

/-- Per-pair evaluation (`multi_student_analyzer.py` lines 167-224): skip the
pair for an institute type outside `eligibleInstituteTypes`; otherwise emit
one result row built from the applicable rank, the best eligible cutoff, the
audit list and the verdict. -/
def evalPair (cols elig : List String) (s : StudentRow) (o : MasterRow) : Option EvalResult :=
  match rankStageFor o.TYPE with
  | none => none
  | some rankTypeUsed =>
    some {
      Student_ID := s.STUDENT_ID
      Student_Name := s.NAME
      Student_Category := s.CATEGORY
      Student_Gender := s.GENDER
      College_Type := o.TYPE
      College_Code := o.COLLEGE_CODE
      Program_Name := o.PROGRAM.getD ("N/A")
      Course_Code := o.COURSE_CODE
      Student_Rank_Used := optNumStr (applicableRankOf s o.TYPE)
      Rank_Type := rankTypeUsed
      Best_Eligible_Cutoff := optNumStr (bestCutoffFor cols elig s o)
      Considered_Cutoffs_for_Option := String.intercalate (", ") (consideredFor cols elig s o)
      Seat_Chance := seatChanceFor cols elig s o }

/-- Evaluation of one student against every master row
(`multi_student_analyzer.py` lines 123-224): the eligible columns are resolved
once per student and each master row is evaluated in table order. -/
def evalStudent (mt : MasterTable) (s : StudentRow) : List EvalResult :=
  mt.rows.filterMap (evalPair mt.cols (eligibleCutoffCols mt.cols s.CATEGORY s.GENDER) s)

/-- The whole batch run: students in upload order, master rows in table
order. -/
def evalBatch (mt : MasterTable) (students : List StudentRow) : List EvalResult :=
  students.flatMap (evalStudent mt)

/-- Number of master rows whose institute type is not skipped. -/
def eligibleOptionCount (mt : MasterTable) : Nat :=
  (mt.rows.filter (fun o => decide (o.TYPE ∈ eligibleInstituteTypes))).length

/-- The CSV header line of the exported results. -/
def resultHeader : String :=
  String.intercalate (",")
    ["Student_ID", "Student_Name", "Student_Category", "Student_Gender", "College_Type",
     "College_Code", "Program_Name", "Course_Code", "Student_Rank_Used", "Rank_Type",
     "Best_Eligible_Cutoff", "Considered_Cutoffs_for_Option", "Seat_Chance"]

/-- One rendered CSV line of a result row. -/
def renderRow (r : EvalResult) : String :=
  String.intercalate (",")
    [r.Student_ID, r.Student_Name, r.Student_Category, r.Student_Gender, r.College_Type,
     r.College_Code, r.Program_Name, r.Course_Code, r.Student_Rank_Used, r.Rank_Type,
     r.Best_Eligible_Cutoff, r.Considered_Cutoffs_for_Option, r.Seat_Chance]

/-- The rendered byte content of a result sequence. -/
def renderCSV (rs : List EvalResult) : String :=
  String.intercalate ("\n") (resultHeader :: rs.map renderRow)

/-- The student batch table as loaded: its normalized columns and parsed
rows. -/
structure StudentTable where
  cols : List String
  rows : List StudentRow
deriving DecidableEq, Repr

/-- The required master columns check of `multi_student_analyzer.py`
lines 39-40. -/
def requiredMasterColsPresent (cols : List String) : Bool :=
  ["COLLEGE_CODE", "COURSE_CODE", "TYPE"].all (fun c => decide (c ∈ cols))

/-- The required student-batch columns check of `multi_student_analyzer.py`
lines 82-87. -/
def requiredStudentColsPresent (cols : List String) : Bool :=
  ["NAME", "STUDENT_ID", "GENDER", "CATEGORY",
   "JEE_ADVACED_CRL_RANK", "JEE_ADVNCED_CATEGORY_RANK",
   "JEE_MAIN_CRL_RANK", "JEE_MAIN_CATEGORY_RANK"].all (fun c => decide (c ∈ cols))

/-- The environment of one invocation of `display_multi_student_analyzer`:
whether the master file exists on disk, the outcome of loading and
preprocessing it (`none` models a raised exception), whether a student batch
file is uploaded, the outcome of loading it, and whether the run button was
clicked. -/
structure AnalyzerEnv where
  masterFileExists : Bool
  masterLoad : Option MasterTable
  studentFileUploaded : Bool
  studentLoad : Option StudentTable
  runClicked : Bool
deriving DecidableEq, Repr

/-- The session-state transition of `display_multi_student_analyzer` on the
stored result set (`st.session_state["analysis_results_df"]`): every failure
path deletes the stored results (lines 24-29, 40-45, 60-64, 66-71, 87-92,
98-102 of `multi_student_analyzer.py`); a successful run replaces them
(lines 107-231); otherwise they are kept. -/
def runAnalyzer (env : AnalyzerEnv) (prior : Option (List EvalResult)) :
    Option (List EvalResult) :=
  if !env.masterFileExists then none
  else
    match env.masterLoad with
    | none => none
    | some mt =>
      if !requiredMasterColsPresent mt.cols then none
      else if !env.studentFileUploaded then none
      else
        match env.studentLoad with
        | none => none
        | some stb =>
          if !requiredStudentColsPresent stb.cols then none
          else if env.runClicked then some (evalBatch mt stb.rows)
          else prior

/-- A run of `display_multi_student_analyzer` that stops before producing (or
keeping) results: master file missing, master load error, master schema error,
no student file, student load error, or student schema error. -/
def analyzerRunFails (env : AnalyzerEnv) : Bool :=
  !env.masterFileExists ||
  (match env.masterLoad with
   | none => true
   | some mt =>
     !requiredMasterColsPresent mt.cols ||
     !env.studentFileUploaded ||
     (match env.studentLoad with
      | none => true
      | some stb => !requiredStudentColsPresent stb.cols))

/-- One row of the uploaded choice table restricted to its derived join key
(`verify_choice_filling_structured.py` line 37). -/
structure ChoiceRow where
  Main_Code : String
deriving DecidableEq, Repr

/-- The join key of a master row: `COLLEGE_CODE.strip() + "_" +
COURSE_CODE.strip()` (`multi_student_analyzer.py` line 47,
`verify_choice_filling_structured.py` line 51). -/
def mainCodeOf (o : MasterRow) : String :=
  pyStrip o.COLLEGE_CODE ++ "_" ++ pyStrip o.COURSE_CODE

/-- The three outputs of the validation tab (`display_validation`,
`verify_choice_filling_structured.py` lines 356-372). -/
structure ValidationOutput where
  missingInMaster : List ChoiceRow
  missingInUpload : List MasterRow
  duplicateStudentRows : List ChoiceRow
deriving DecidableEq, Repr

/-- `display_validation`: student rows whose key is absent from the master,
master rows whose key is absent from the student upload, and student rows
whose key occurs more than once in the student upload
(`student.duplicated(subset='Main_Code', keep=False)`).  No check inspects
duplication of keys within the master table. -/
def validationChecks (master : List MasterRow) (student : List ChoiceRow) : ValidationOutput :=
  { missingInMaster :=
      student.filter (fun r => decide (r.Main_Code ∉ master.map mainCodeOf))
    missingInUpload :=
      master.filter (fun o => decide (mainCodeOf o ∉ student.map ChoiceRow.Main_Code))
    duplicateStudentRows :=
      student.filter (fun r => decide (1 < (student.map ChoiceRow.Main_Code).count r.Main_Code)) }

/-! Concrete sample data used by the witness theorems.  They mirror the
scenario walkthroughs of the repository's own documentation: an SC/FEM
student with advanced-stage rank 500 against IIT options. -/

/-- Sample normalized master schema with all ten cutoff columns. -/
def sampleCols : List String :=
  ["COLLEGE_CODE", "COURSE_CODE", "TYPE",
   "OC_FEM", "OC_GEN", "EWS_FEM", "EWS_GEN", "OBC_FEM", "OBC_GEN",
   "SC_FEM", "SC_GEN", "ST_FEM", "ST_GEN"]

/-- Sample SC/FEM student with both stage ranks 500. -/
def sampleStudent : StudentRow :=
  { NAME := "A", STUDENT_ID := "S1", GENDER := "FEM", CATEGORY := "SC",
    JEE_ADVACED_CRL_RANK := none, JEE_ADVNCED_CATEGORY_RANK := some 500,
    JEE_MAIN_CRL_RANK := none, JEE_MAIN_CATEGORY_RANK := some 500 }

/-- Eligible columns of the sample student against the sample schema. -/
def sampleElig : List String := eligibleCutoffCols sampleCols ("SC") ("FEM")

/-- Sample IIT option where the open-category cutoff 300 undercuts the SC
cutoffs. -/
def sampleOptA : MasterRow :=
  { COLLEGE_CODE := "C1", COURSE_CODE := "X", TYPE := "IIT", PROGRAM := some "CSE",
    cutoffs := [("SC_FEM", 600), ("SC_GEN", 550), ("OC_GEN", 300)] }

/-- Sample IIT option publishing only the SC_FEM cutoff 600. -/
def sampleOptB : MasterRow :=
  { COLLEGE_CODE := "C1", COURSE_CODE := "Y", TYPE := "IIT", PROGRAM := some "EE",
    cutoffs := [("SC_FEM", 600)] }

/-- The result row the engine emits for `sampleStudent` against
`sampleOptB`. -/
def sampleResB : EvalResult :=
  { Student_ID := "S1", Student_Name := "A", Student_Category := "SC",
    Student_Gender := "FEM", College_Type := "IIT", College_Code := "C1",
    Program_Name := "EE", Course_Code := "Y", Student_Rank_Used := "500",
    Rank_Type := "JEE Advanced Rank", Best_Eligible_Cutoff := "600",
    Considered_Cutoffs_for_Option := "SC_FEM: 600", Seat_Chance := "✅ LIKELY" }

/-! Shared helper lemmas. -/

instance : Std.Antisymm ((· : Int) ≤ ·) := ⟨fun h h2 => le_antisymm h h2⟩

/-- Characterization of the minimum of an integer list. -/
theorem int_min?_eq_some_iff {xs : List Int} {b : Int} :
    xs.min? = some b ↔ b ∈ xs ∧ ∀ v, v ∈ xs → b ≤ v :=
  List.min?_eq_some_iff (fun x => le_refl x) (fun x y => min_choice x y)
    (fun _ _ _ => le_min_iff)

/-- The rank stage is assigned exactly to the four non-skipped institute
types. -/
theorem rankStageFor_isSome (t : String) :
    (rankStageFor t).isSome = decide (t ∈ eligibleInstituteTypes) := by
  unfold rankStageFor eligibleInstituteTypes
  split_ifs with h1 h2 <;> simp_all

/-- A pair is emitted exactly when its institute type is one of the four
non-skipped types, regardless of every other field. -/
theorem evalPair_isSome (cols elig : List String) (s : StudentRow) (o : MasterRow) :
    (evalPair cols elig s o).isSome = decide (o.TYPE ∈ eligibleInstituteTypes) := by
  rw [← rankStageFor_isSome]
  cases h : rankStageFor o.TYPE <;> simp [evalPair, h]

/-- An emitted result carries the components computed by the engine. -/
theorem evalPair_eq_some_iff (cols elig : List String) (s : StudentRow) (o : MasterRow)
    (r : EvalResult) (h : evalPair cols elig s o = some r) :
    r.Seat_Chance = seatChanceFor cols elig s o ∧
    r.Best_Eligible_Cutoff = optNumStr (bestCutoffFor cols elig s o) ∧
    r.Student_Rank_Used = optNumStr (applicableRankOf s o.TYPE) := by
  cases hst : rankStageFor o.TYPE with
  | none => simp [evalPair, hst] at h
  | some rt =>
    simp only [evalPair, hst] at h
    obtain rfl := (Option.some.injEq _ _).mp h
    exact ⟨rfl, rfl, rfl⟩

/-- C1: for every emitted (student, option) pair, the verdict is LIKELY iff
the applicable rank is present, the best eligible cutoff (the minimum of the
collected eligible cutoff values) is present, and the rank is at most the
cutoff; a rank strictly greater than the best eligible cutoff yields
UNLIKELY, so a tie at equal rank is LIKELY. -/
theorem likely_iff_rank_le_best_cutoff
    (cols elig : List String) (s : StudentRow) (o : MasterRow) (r : EvalResult)
    (h : evalPair cols elig s o = some r) :
    (r.Seat_Chance = "✅ LIKELY" ↔
      ∃ rk b, applicableRankOf s o.TYPE = some rk ∧
        (collectedCutoffs cols elig o).min? = some b ∧ rk ≤ b)
    ∧ (∀ rk b, applicableRankOf s o.TYPE = some rk →
        (collectedCutoffs cols elig o).min? = some b → b < rk →
        r.Seat_Chance = "❌ UNLIKELY") := by
  obtain ⟨hsc, -, -⟩ := evalPair_eq_some_iff cols elig s o r h
  rw [hsc]
  unfold seatChanceFor bestCutoffFor
  cases hr : applicableRankOf s o.TYPE with
  | none => simp [hr]
  | some rk =>
    cases hm : (collectedCutoffs cols elig o).min? with
    | none => simp [hr, hm]
    | some b =>
      simp only [hr, hm]
      by_cases hle : rk ≤ b
      · constructor
        · simp only [if_pos hle]
          constructor
          · intro _
            exact ⟨rk, b, rfl, rfl, hle⟩
          · intro _
            trivial
        · intro rk2 b2 hrk2 hb2 hlt
          obtain rfl : rk = rk2 := by simpa using hrk2
          obtain rfl : b = b2 := by simpa using hb2
          exact absurd hle (not_le.mpr hlt)
      · constructor
        · simp only [if_neg hle]
          constructor
          · intro hcontra
            exact absurd hcontra (by decide)
          · rintro ⟨rk2, b2, hrk2, hb2, hle2⟩
            obtain rfl : rk = rk2 := by simpa using hrk2
            obtain rfl : b = b2 := by simpa using hb2
            exact absurd hle2 hle
        · intro rk2 b2 hrk2 hb2 hlt
          simp [if_neg hle]

/-- Witness for the LIKELY characterization at the sample SC/FEM student with
rank 500 against the IIT option publishing only SC_FEM 600. -/
theorem likely_iff_rank_le_best_cutoff_witness :
    (sampleResB.Seat_Chance = "✅ LIKELY" ↔
      ∃ rk b, applicableRankOf sampleStudent sampleOptB.TYPE = some rk ∧
        (collectedCutoffs sampleCols sampleElig sampleOptB).min? = some b ∧ rk ≤ b)
    ∧ (∀ rk b, applicableRankOf sampleStudent sampleOptB.TYPE = some rk →
        (collectedCutoffs sampleCols sampleElig sampleOptB).min? = some b → b < rk →
        sampleResB.Seat_Chance = "❌ UNLIKELY") :=
  likely_iff_rank_le_best_cutoff sampleCols sampleElig sampleStudent sampleOptB sampleResB
    (by decide)

/-- C2: the best eligible cutoff is the minimum over exactly the cutoff
values whose label is eligible and whose value is present; options agreeing
on every eligible column collect identical values, so non-eligible columns
never influence the result; and the emitted Best_Eligible_Cutoff field is the
rendering of that minimum whenever the applicable rank is present. -/
theorem best_cutoff_min_of_eligible
    (cols elig : List String) (s : StudentRow) (o : MasterRow) :
    (∀ b : Int, (collectedCutoffs cols elig o).min? = some b ↔
       (∃ c ∈ elig, getCutoff cols o c = some b) ∧
       ∀ c ∈ elig, ∀ v, getCutoff cols o c = some v → b ≤ v)
    ∧ (∀ o' : MasterRow, (∀ c ∈ elig, getCutoff cols o' c = getCutoff cols o c) →
        collectedCutoffs cols elig o' = collectedCutoffs cols elig o)
    ∧ (∀ r rk, evalPair cols elig s o = some r → applicableRankOf s o.TYPE = some rk →
        r.Best_Eligible_Cutoff = optNumStr (collectedCutoffs cols elig o).min?) := by
  refine ⟨?_, ?_, ?_⟩
  · intro b
    rw [int_min?_eq_some_iff]
    unfold collectedCutoffs
    constructor
    · rintro ⟨hmem, hle⟩
      rw [List.mem_filterMap] at hmem
      obtain ⟨c, hc, hget⟩ := hmem
      refine ⟨⟨c, hc, hget⟩, ?_⟩
      intro c2 hc2 v hv
      exact hle v (List.mem_filterMap.mpr ⟨c2, hc2, hv⟩)
    · rintro ⟨⟨c, hc, hget⟩, hub⟩
      refine ⟨List.mem_filterMap.mpr ⟨c, hc, hget⟩, ?_⟩
      intro v hv
      rw [List.mem_filterMap] at hv
      obtain ⟨c2, hc2, hg2⟩ := hv
      exact hub c2 hc2 v hg2
  · intro o' hagree
    unfold collectedCutoffs
    apply List.filterMap_congr
    intro c hc
    exact hagree c hc
  · intro r rk h hr
    obtain ⟨-, hb, -⟩ := evalPair_eq_some_iff cols elig s o r h
    rw [hb]
    unfold bestCutoffFor
    rw [hr]

/-- Witness for the best-cutoff characterization: at the sample option the
minimum 300 comes from the eligible open-category column and bounds every
eligible value. -/
theorem best_cutoff_min_of_eligible_witness :
    (∃ c ∈ sampleElig, getCutoff sampleCols sampleOptA c = some 300) ∧
      ∀ c ∈ sampleElig, ∀ v, getCutoff sampleCols sampleOptA c = some v → (300 : Int) ≤ v :=
  ((best_cutoff_min_of_eligible sampleCols sampleElig sampleStudent sampleOptA).1 300).mp
    (by decide)

/-- C3: for an OC student the resolver returns a duplicate-free set contained
in the two open-category columns, and for every reserved-category female
student the set contains OC_GEN whenever the master schema has it. -/
theorem resolver_oc_isolation_and_fem_fallback
    (masterCols : List String) (cat gender : String)
    (hcat : cat ∈ (["OC", "EWS", "OBC", "SC", "ST"] : List String)) :
    (cat = "OC" →
      (∀ c ∈ eligibleCutoffCols masterCols cat gender, c = "OC_GEN" ∨ c = "OC_FEM")
      ∧ (eligibleCutoffCols masterCols cat gender).Nodup)
    ∧ (cat ≠ "OC" → gender = "FEM" → "OC_GEN" ∈ masterCols →
        "OC_GEN" ∈ eligibleCutoffCols masterCols cat gender) := by
  constructor
  · intro hOC
    subst hOC
    constructor
    · intro c hc
      unfold eligibleCutoffCols category_to_cutoff_map at hc
      rw [List.mem_dedup, List.mem_filter] at hc
      obtain ⟨hcb, -⟩ := hc
      simp only [if_pos rfl] at hcb
      split_ifs at hcb <;> simp_all
      tauto
    · exact List.nodup_dedup _
  · intro hne hFem hOCGEN
    have hcat2 : cat = "EWS" ∨ cat = "OBC" ∨ cat = "SC" ∨ cat = "ST" := by
      simp only [List.mem_cons, List.not_mem_nil, or_false] at hcat
      rcases hcat with h | h | h | h | h
      · exact absurd h hne
      · exact Or.inl h
      · exact Or.inr (Or.inl h)
      · exact Or.inr (Or.inr (Or.inl h))
      · exact Or.inr (Or.inr (Or.inr h))
    rcases hcat2 with rfl | rfl | rfl | rfl <;>
      · unfold eligibleCutoffCols category_to_cutoff_map
        rw [List.mem_dedup, List.mem_filter]
        refine ⟨?_, by simp [hOCGEN]⟩
        simp [hFem, hOCGEN]

/-- Witness for the resolver at the sample schema: the OC/FEM set is within
the open-category columns and duplicate-free, and the SC/FEM set contains
OC_GEN. -/
theorem resolver_oc_isolation_and_fem_fallback_witness :
    (("OC_FEM" : String) = "OC_GEN" ∨ ("OC_FEM" : String) = "OC_FEM")
    ∧ (eligibleCutoffCols sampleCols ("OC") ("FEM")).Nodup
    ∧ "OC_GEN" ∈ eligibleCutoffCols sampleCols ("SC") ("FEM") := by
  refine ⟨?_, ?_, ?_⟩
  · exact ((resolver_oc_isolation_and_fem_fallback sampleCols ("OC") ("FEM")
      (by decide)).1 rfl).1 ("OC_FEM") (by decide)
  · exact ((resolver_oc_isolation_and_fem_fallback sampleCols ("OC") ("FEM")
      (by decide)).1 rfl).2
  · exact (resolver_oc_isolation_and_fem_fallback sampleCols ("SC") ("FEM")
      (by decide)).2 (by decide) rfl (by decide)

/-- Length of a filterMap is the number of elements mapped to a value. -/
theorem length_filterMap_eq_length_filter {α β : Type} (f : α → Option β) (l : List α) :
    (l.filterMap f).length = (l.filter (fun a => (f a).isSome)).length := by
  induction l with
  | nil => rfl
  | cons x t ih =>
    cases h : f x <;> simp [List.filterMap_cons, List.filter_cons, h, ih]

/-- One student yields one result row per non-skipped master row. -/
theorem length_evalStudent (mt : MasterTable) (s : StudentRow) :
    (evalStudent mt s).length = eligibleOptionCount mt := by
  unfold evalStudent eligibleOptionCount
  rw [length_filterMap_eq_length_filter]
  congr 1
  apply List.filter_congr
  intro o ho
  exact evalPair_isSome mt.cols (eligibleCutoffCols mt.cols s.CATEGORY s.GENDER) s o

/-- C4: a batch over N student rows and a master table with M non-skipped
rows emits exactly N×M result rows; a pair with institute type IIT, NIT,
IIIT or GFTI always yields a row — with verdict RANK_MISSING and an absent
best cutoff when the applicable rank is absent — and any other institute
type yields none. -/
theorem batch_emits_n_times_m_rows (mt : MasterTable) (students : List StudentRow) :
    (evalBatch mt students).length = students.length * eligibleOptionCount mt
    ∧ (∀ cols elig : List String, ∀ s : StudentRow, ∀ o : MasterRow,
        o.TYPE ∈ eligibleInstituteTypes → (evalPair cols elig s o).isSome = true)
    ∧ (∀ cols elig : List String, ∀ s : StudentRow, ∀ o : MasterRow,
        o.TYPE ∉ eligibleInstituteTypes → evalPair cols elig s o = none)
    ∧ (∀ cols elig : List String, ∀ s : StudentRow, ∀ o : MasterRow, ∀ r : EvalResult,
        evalPair cols elig s o = some r → applicableRankOf s o.TYPE = none →
        r.Seat_Chance = "N/A - Student Rank Missing" ∧ r.Best_Eligible_Cutoff = "N/A") := by
  refine ⟨?_, ?_, ?_, ?_⟩
  · induction students with
    | nil => simp [evalBatch]
    | cons s t ih =>
      simp only [evalBatch, List.flatMap_cons, List.length_append, List.length_cons] at *
      rw [ih, length_evalStudent]
      ring
  · intro cols elig s o hT
    rw [evalPair_isSome]
    simp [hT]
  · intro cols elig s o hT
    have hs := evalPair_isSome cols elig s o
    cases hev : evalPair cols elig s o with
    | none => rfl
    | some r =>
      rw [hev] at hs
      simp [hT] at hs
  · intro cols elig s o r h hrank
    obtain ⟨hsc, hb, -⟩ := evalPair_eq_some_iff cols elig s o r h
    constructor
    · rw [hsc]
      simp [seatChanceFor, bestCutoffFor, hrank]
    · rw [hb]
      simp [bestCutoffFor, hrank, optNumStr]

/-- The verdict computed for any pair is one of the four documented verdict
strings. -/
theorem seatChanceFor_mem_documented (cols elig : List String) (s : StudentRow) (o : MasterRow) :
    seatChanceFor cols elig s o ∈
      (["✅ LIKELY", "❌ UNLIKELY", "N/A - No Cutoff", "N/A - Student Rank Missing"] :
        List String) := by
  unfold seatChanceFor
  cases hb : bestCutoffFor cols elig s o with
  | none => cases hr : applicableRankOf s o.TYPE <;> simp
  | some b =>
    cases hr : applicableRankOf s o.TYPE with
    | none => simp
    | some rk => by_cases h : rk ≤ b <;> simp [h]

/-- C5: per-pair evaluation is total over coerced inputs — every emitted row
carries one of the four documented verdict states, and the batch is the
per-student concatenation, so one student's rows never affect another
student's evaluation. -/
theorem eval_total_documented_verdicts (mt : MasterTable) (students : List StudentRow) :
    (∀ r, r ∈ evalBatch mt students →
      r.Seat_Chance ∈
        (["✅ LIKELY", "❌ UNLIKELY", "N/A - No Cutoff", "N/A - Student Rank Missing"] :
          List String))
    ∧ (∀ s : StudentRow, ∀ rest : List StudentRow,
        evalBatch mt (s :: rest) = evalStudent mt s ++ evalBatch mt rest) := by
  constructor
  · intro r hr
    unfold evalBatch at hr
    rw [List.mem_flatMap] at hr
    obtain ⟨s, -, hr⟩ := hr
    unfold evalStudent at hr
    rw [List.mem_filterMap] at hr
    obtain ⟨o, -, ho⟩ := hr
    obtain ⟨hsc, -, -⟩ := evalPair_eq_some_iff _ _ _ _ _ ho
    rw [hsc]
    exact seatChanceFor_mem_documented _ _ _ _
  · intro s rest
    rfl

/-- Witness for verdict totality at a concrete emitted row. -/
theorem eval_total_documented_verdicts_witness :
    sampleResB.Seat_Chance ∈
      (["✅ LIKELY", "❌ UNLIKELY", "N/A - No Cutoff", "N/A - Student Rank Missing"] :
        List String) :=
  (eval_total_documented_verdicts
    { cols := sampleCols, rows := [sampleOptA, sampleOptB] } [sampleStudent]).1
    sampleResB (by decide)

/-- C6: the master header normalization of the batch analyzer, the dashboard
verifier and smart insights substitutes underscores for spaces, while the
choice verifier's does not — on the master header "College Code" the two
normalizations produce different join-key column names, so the
normalization step is not applied identically in every workflow that loads
the master table. -/
theorem header_normalization_divergence :
    normalizeHeaderUnderscore (" College Code ") = "COLLEGE_CODE"
    ∧ normalizeHeaderPlain (" College Code ") = "COLLEGE CODE"
    ∧ normalizeHeaderUnderscore (" College Code ") ≠ normalizeHeaderPlain (" College Code ") := by
  decide

/-- C7: batch evaluation is a pure function of the master table and the
student rows — two runs on equal inputs produce the same result sequence and
byte-identical rendered output, audit strings included; the only
implementation-defined ingredient, the set enumeration order of the
resolver's de-duplication, is fixed within a process and modelled by a fixed
de-duplication order. -/
theorem batch_rerun_byte_identical (mt1 mt2 : MasterTable) (ss1 ss2 : List StudentRow)
    (hm : mt1 = mt2) (hs : ss1 = ss2) :
    evalBatch mt1 ss1 = evalBatch mt2 ss2
    ∧ renderCSV (evalBatch mt1 ss1) = renderCSV (evalBatch mt2 ss2) := by
  subst hm
  subst hs
  exact ⟨rfl, rfl⟩

/-- Witness for determinism at the sample inputs. -/
theorem batch_rerun_byte_identical_witness :
    evalBatch { cols := sampleCols, rows := [sampleOptA, sampleOptB] } [sampleStudent]
      = evalBatch { cols := sampleCols, rows := [sampleOptA, sampleOptB] } [sampleStudent]
    ∧ renderCSV
        (evalBatch { cols := sampleCols, rows := [sampleOptA, sampleOptB] } [sampleStudent])
      = renderCSV
        (evalBatch { cols := sampleCols, rows := [sampleOptA, sampleOptB] } [sampleStudent]) :=
  batch_rerun_byte_identical _ _ _ _ rfl rfl

/-- Sample master row of a skipped institute type. -/
def sampleOptOther : MasterRow :=
  { COLLEGE_CODE := "C2", COURSE_CODE := "Z", TYPE := "OTHER", PROGRAM := none,
    cutoffs := [("OC_GEN", 1)] }

/-- Sample OC/GEN student whose advanced-stage (CRL) rank is absent. -/
def sampleNoRank : StudentRow :=
  { NAME := "B", STUDENT_ID := "S2", GENDER := "GEN", CATEGORY := "OC",
    JEE_ADVACED_CRL_RANK := none, JEE_ADVNCED_CATEGORY_RANK := some 5,
    JEE_MAIN_CRL_RANK := some 7, JEE_MAIN_CATEGORY_RANK := none }

/-- Sample master table with two IIT options and one skipped option. -/
def sampleMT : MasterTable :=
  { cols := sampleCols, rows := [sampleOptA, sampleOptB, sampleOptOther] }

/-- The result row the engine emits for `sampleNoRank` against
`sampleOptA`. -/
def sampleResRM : EvalResult :=
  { Student_ID := "S2", Student_Name := "B", Student_Category := "OC",
    Student_Gender := "GEN", College_Type := "IIT", College_Code := "C1",
    Program_Name := "CSE", Course_Code := "X", Student_Rank_Used := "N/A",
    Rank_Type := "JEE Advanced Rank", Best_Eligible_Cutoff := "N/A",
    Considered_Cutoffs_for_Option := "", Seat_Chance := "N/A - Student Rank Missing" }

/-- Witness for the batch row count at two students against the sample master
table of two eligible and one skipped option, together with the per-pair
emission facts at concrete pairs. -/
theorem batch_emits_n_times_m_rows_witness :
    (evalBatch sampleMT [sampleStudent, sampleNoRank]).length
      = [sampleStudent, sampleNoRank].length * eligibleOptionCount sampleMT
    ∧ (evalPair sampleCols sampleElig sampleStudent sampleOptA).isSome = true
    ∧ evalPair sampleCols sampleElig sampleStudent sampleOptOther = none
    ∧ sampleResRM.Seat_Chance = "N/A - Student Rank Missing"
    ∧ sampleResRM.Best_Eligible_Cutoff = "N/A" := by
  have h := batch_emits_n_times_m_rows sampleMT [sampleStudent, sampleNoRank]
  refine ⟨h.1, ?_, ?_, ?_⟩
  · exact h.2.1 sampleCols sampleElig sampleStudent sampleOptA (by decide)
  · exact h.2.2.1 sampleCols sampleElig sampleStudent sampleOptOther (by decide)
  · exact h.2.2.2 sampleCols
      (eligibleCutoffCols sampleCols ("OC") ("GEN")) sampleNoRank sampleOptA sampleResRM
      (by decide) (by decide)

/-- A previously stored successful result set. -/
def samplePrior : List EvalResult := [sampleResB]

/-- Environment of a run whose master file is present and valid but whose
uploaded student batch lacks required columns after normalization. -/
def envStudentSchemaBad : AnalyzerEnv :=
  { masterFileExists := true
    masterLoad := some { cols := sampleCols, rows := [sampleOptA] }
    studentFileUploaded := true
    studentLoad := some { cols := ["NAME", "STUDENT_ID"], rows := [] }
    runClicked := false }

/-- Environment of a run whose master file is missing from disk. -/
def envMasterMissing : AnalyzerEnv :=
  { masterFileExists := false, masterLoad := none, studentFileUploaded := false,
    studentLoad := none, runClicked := false }

/-- C8 counterexample: a run that fails because the uploaded student batch
misses required columns — while the master file is present and its schema
valid — clears the previously stored results instead of retaining them. -/
theorem student_schema_failure_clears_prior :
    requiredMasterColsPresent sampleCols = true
    ∧ requiredStudentColsPresent (["NAME", "STUDENT_ID"]) = false
    ∧ runAnalyzer envStudentSchemaBad (some samplePrior) = none := by
  decide

/-- C8 amended: every failure path of the analyzer — master file missing,
master load error, master schema error, student file absent, student load
error, or student schema error — clears the prior stored result set; prior
results are never retained across a failed run. -/
theorem failed_run_clears_prior_results (env : AnalyzerEnv)
    (prior : Option (List EvalResult)) (h : analyzerRunFails env = true) :
    runAnalyzer env prior = none := by
  obtain ⟨me, ml, su, sl, rc⟩ := env
  unfold runAnalyzer analyzerRunFails at *
  cases me with
  | false => simp
  | true =>
    cases ml with
    | none => simp
    | some mt =>
      cases hrm : requiredMasterColsPresent mt.cols with
      | false => simp [hrm]
      | true =>
        cases su with
        | false => simp [hrm]
        | true =>
          cases sl with
          | none => simp [hrm]
          | some stb =>
            cases hrs : requiredStudentColsPresent stb.cols with
            | false => simp [hrm, hrs]
            | true => simp [hrm, hrs] at h

/-- Witness for the amended clearing behavior at a missing master file. -/
theorem failed_run_clears_prior_results_witness :
    runAnalyzer envMasterMissing (some samplePrior) = none :=
  failed_run_clears_prior_results envMasterMissing (some samplePrior) (by decide)

/-- Two distinct master rows sharing the join key C1_X. -/
def dupMasterRowA : MasterRow :=
  { COLLEGE_CODE := "C1", COURSE_CODE := "X", TYPE := "NIT", PROGRAM := some "CSE",
    cutoffs := [("OC_GEN", 100)] }

/-- Second master row with the same join key but a different cutoff. -/
def dupMasterRowB : MasterRow :=
  { COLLEGE_CODE := "C1", COURSE_CODE := "X", TYPE := "NIT", PROGRAM := some "CSE",
    cutoffs := [("OC_GEN", 200)] }

/-- A student upload filling exactly the duplicated option. -/
def dupChoice : ChoiceRow := { Main_Code := "C1_X" }

/-- C9 counterexample: on a master table with two distinct rows sharing a
join key, every validation output is empty and equals the output for the
de-duplicated master — the duplication is not surfaced as a flagged
condition anywhere in the validation checks. -/
theorem master_duplicates_not_flagged :
    mainCodeOf dupMasterRowA = mainCodeOf dupMasterRowB
    ∧ dupMasterRowA ≠ dupMasterRowB
    ∧ validationChecks [dupMasterRowA, dupMasterRowB] [dupChoice] =
        { missingInMaster := [], missingInUpload := [], duplicateStudentRows := [] }
    ∧ validationChecks [dupMasterRowA, dupMasterRowB] [dupChoice]
        = validationChecks [dupMasterRowA] [dupChoice] := by
  decide

/-- C9 amended: the duplicate check of the validation tab inspects the
student upload only — it is unaffected by the master table — and the batch
engine does not resolve master duplication by picking one row: every master
row occurrence of a non-skipped institute type yields its own result row. -/
theorem duplicates_flagged_only_in_student_upload
    (m1 m2 : List MasterRow) (student : List ChoiceRow)
    (mt : MasterTable) (s : StudentRow) :
    (validationChecks m1 student).duplicateStudentRows
      = (validationChecks m2 student).duplicateStudentRows
    ∧ (evalStudent mt s).length = eligibleOptionCount mt :=
  ⟨rfl, length_evalStudent mt s⟩

/-- Sample student whose category value is outside the five mapped
categories. -/
def sampleUnknownStudent : StudentRow :=
  { NAME := "U", STUDENT_ID := "S3", GENDER := "FEM", CATEGORY := "XYZ",
    JEE_ADVACED_CRL_RANK := some 10, JEE_ADVNCED_CATEGORY_RANK := some 10,
    JEE_MAIN_CRL_RANK := some 10, JEE_MAIN_CATEGORY_RANK := some 10 }

/-- The result row the engine emits for `sampleUnknownStudent` against
`sampleOptA`. -/
def sampleResUnknown : EvalResult :=
  { Student_ID := "S3", Student_Name := "U", Student_Category := "XYZ",
    Student_Gender := "FEM", College_Type := "IIT", College_Code := "C1",
    Program_Name := "CSE", Course_Code := "X", Student_Rank_Used := "10",
    Rank_Type := "JEE Advanced Rank", Best_Eligible_Cutoff := "N/A",
    Considered_Cutoffs_for_Option := "", Seat_Chance := "N/A - No Cutoff" }

/-- C10: a category outside the five mapped ones resolves to an empty
eligible-column set, so every emitted pair of such a student whose
applicable rank is present carries the no-cutoff-data verdict, and pairs of
non-skipped institute types are still all emitted. -/
theorem unknown_category_no_cutoff
    (masterCols : List String) (cat gender : String)
    (hcat : cat ∉ (["OC", "EWS", "OBC", "SC", "ST"] : List String)) :
    eligibleCutoffCols masterCols cat gender = []
    ∧ (∀ s : StudentRow, ∀ o : MasterRow, ∀ r : EvalResult, ∀ rk : Int,
        evalPair masterCols (eligibleCutoffCols masterCols cat gender) s o = some r →
        applicableRankOf s o.TYPE = some rk →
        r.Seat_Chance = "N/A - No Cutoff")
    ∧ (∀ s : StudentRow, ∀ o : MasterRow, o.TYPE ∈ eligibleInstituteTypes →
        (evalPair masterCols (eligibleCutoffCols masterCols cat gender) s o).isSome = true) := by
  have hmap : category_to_cutoff_map cat = none := by
    simp only [List.mem_cons, List.not_mem_nil, or_false, not_or] at hcat
    obtain ⟨h1, h2, h3, h4, h5⟩ := hcat
    simp [category_to_cutoff_map, h1, h2, h3, h4, h5]
  have helig : eligibleCutoffCols masterCols cat gender = [] := by
    unfold eligibleCutoffCols
    rw [hmap]
    rfl
  refine ⟨helig, ?_, ?_⟩
  · intro s o r rk h hr
    obtain ⟨hsc, -, -⟩ := evalPair_eq_some_iff _ _ _ _ _ h
    rw [hsc, helig]
    simp [seatChanceFor, bestCutoffFor, collectedCutoffs, hr]
  · intro s o hT
    rw [evalPair_isSome]
    simp [hT]

/-- Witness for the unknown-category behavior at the sample data. -/
theorem unknown_category_no_cutoff_witness :
    eligibleCutoffCols sampleCols ("XYZ") ("FEM") = []
    ∧ sampleResUnknown.Seat_Chance = "N/A - No Cutoff"
    ∧ (evalPair sampleCols (eligibleCutoffCols sampleCols ("XYZ") ("FEM"))
        sampleUnknownStudent sampleOptA).isSome = true := by
  have h := unknown_category_no_cutoff sampleCols ("XYZ") ("FEM") (by decide)
  refine ⟨h.1, ?_, ?_⟩
  · exact h.2.1 sampleUnknownStudent sampleOptA sampleResUnknown 10 (by decide) (by decide)
  · exact h.2.2 sampleUnknownStudent sampleOptA (by decide)
